import Mathlib

/-
  Verification of the concurrency and scheduling subsystem of the
  ClangCompleter (src/cpp/ycm/ClangCompleter.cpp).

  The C++ code is shallowly embedded: each member function becomes a pure
  Lean function over an explicit state, mutex try-locks become a boolean
  "held elsewhere" parameter, and the worker-thread run loops become
  labelled transition systems.  libclang is opaque in the source, so a
  translation unit is modelled as a record carrying the inputs it was
  created from plus an opaque diagnostics list produced by an abstract
  analysis function passed as a parameter.
-/

namespace YouCompleteMe

/-- An unsaved (in-memory) file buffer, as passed to the completer. -/
structure UnsavedFile where
  filename_ : String
  contents_ : String
deriving DecidableEq, Repr

/-- A diagnostic produced by the analyzer; kind_ is the one-character
severity code used by CXDiagnosticToDiagnostic (the source tests it
against the character I for informational diagnostics). -/
structure Diagnostic where
  kind_ : Char
  text_ : String
deriving DecidableEq, Repr

/-- An opaque completion candidate record (CompletionData in the source). -/
structure CompletionData where
  name_ : String
deriving DecidableEq, Repr

/-- Model of a libclang translation unit: the filename it was parsed from,
the compile flags it was created with, the unsaved files last applied by a
parse or reparse, and the diagnostics the analyzer currently reports for
it. -/
structure CXTranslationUnit where
  filename_ : String
  flags_ : List String
  unsaved_ : List UnsavedFile
  diags_ : List Diagnostic
deriving DecidableEq, Repr

/-- The opaque analysis behaviour of libclang: what diagnostics a parse of
a given file with given unsaved contents and flags produces.  Kept
abstract because the spec treats the Analyzer as an external capability. -/
def AnalyzeFun : Type := String → List UnsavedFile → List String → List Diagnostic

/-- Model of clang_parseTranslationUnit: builds a fresh unit from the
filename, flags and unsaved files. -/
def clang_parseTranslationUnit (analyze : AnalyzeFun) (filename : String)
    (flags : List String) (unsaved_files : List UnsavedFile) : CXTranslationUnit :=
  { filename_ := filename
    flags_ := flags
    unsaved_ := unsaved_files
    diags_ := analyze filename unsaved_files flags }

/-- Model of clang_reparseTranslationUnit: reparses an existing unit with
new unsaved files.  The unit keeps its identity: its filename and the
compile flags it was created with are untouched; only the unsaved-file
contents and the resulting diagnostics change. -/
def clang_reparseTranslationUnit (analyze : AnalyzeFun) (unit : CXTranslationUnit)
    (unsaved_files : List UnsavedFile) : CXTranslationUnit :=
  { unit with
    unsaved_ := unsaved_files
    diags_ := analyze unit.filename_ unsaved_files unit.flags_ }

/-- ClangCompleter::CreateTranslationUnit: a parse followed immediately by
a reparse (the source reparses right away so the preamble is precompiled). -/
def CreateTranslationUnit (analyze : AnalyzeFun) (filename : String)
    (unsaved_files : List UnsavedFile) (flags : List String) : CXTranslationUnit :=
  clang_reparseTranslationUnit analyze
    (clang_parseTranslationUnit analyze filename flags unsaved_files)
    unsaved_files

/-- The filename_to_translation_unit_ map, as an association list. -/
def TranslationUnitForFilename : Type := List (String × CXTranslationUnit)

/-- FindWithDefault with a NULL default, i.e. lookup returning an Option. -/
def FindWithDefault : TranslationUnitForFilename → String → Option CXTranslationUnit
  | [], _ => none
  | (k, u) :: rest, filename =>
      if k = filename then some u else FindWithDefault rest filename

/-- Store under a key in the map (operator[] assignment): replaces the
binding if present, appends it otherwise. -/
def mapStore : TranslationUnitForFilename → String → CXTranslationUnit →
    TranslationUnitForFilename
  | [], filename, u => [(filename, u)]
  | (k, u₀) :: rest, filename, u =>
      if k = filename then (filename, u) :: rest
      else (k, u₀) :: mapStore rest filename u

/-- ClangCompleter::UpdateTranslationUnit: if the filename already has a
unit, reparse that unit in place with the given unsaved files (the flags
argument is not consulted on this path); otherwise create a new unit from
filename, unsaved files and flags and store it. -/
def UpdateTranslationUnit (analyze : AnalyzeFun) (filename : String)
    (unsaved_files : List UnsavedFile) (flags : List String)
    (m : TranslationUnitForFilename) : TranslationUnitForFilename :=
  match FindWithDefault m filename with
  | some unit => mapStore m filename (clang_reparseTranslationUnit analyze unit unsaved_files)
  | none => mapStore m filename (CreateTranslationUnit analyze filename unsaved_files flags)

/-- ClangCompleter::DiagnosticsForFile.  The source try-locks
clang_access_mutex_; the boolean parameter says whether that mutex is
currently held by another thread, in which case the try-lock fails and the
function returns the empty vector at once.  Otherwise it looks the unit up
and collects its diagnostics, skipping those of kind I. -/
def DiagnosticsForFile (clang_access_held_elsewhere : Bool)
    (m : TranslationUnitForFilename) (filename : String) : List Diagnostic :=
  if clang_access_held_elsewhere then []
  else
    match FindWithDefault m filename with
    | none => []
    | some unit => unit.diags_.filter (fun d => d.kind_ != 'I')

/-- ClangCompleter::UpdatingTranslationUnit: try-locks clang_access_mutex_
and reports whether the lock was NOT obtained, i.e. whether some other
thread currently holds exclusive analyzer access. -/
def UpdatingTranslationUnit (clang_access_held_elsewhere : Bool) : Bool :=
  clang_access_held_elsewhere

/-- A ranking (sorting) task closure: it closes over the request's query
string and a const reference to the shared latest_clang_results_ cache
(the reference is to the shared field, so only the query is stored). -/
structure SortingTask where
  query : String
deriving DecidableEq, Repr

/-- A candidate-extraction task closure: it closes over the filename,
cursor location, unsaved files and flags of the request. -/
structure ClangCompletionsTask where
  filename : String
  line : Int
  column : Int
  unsaved_files : List UnsavedFile
  flags : List String
deriving DecidableEq, Repr

/-- A file-analysis (reparse) task closure: it closes over the filename,
unsaved files and flags of the update request. -/
structure FileParseTask where
  filename : String
  unsaved_files : List UnsavedFile
  flags : List String
deriving DecidableEq, Repr

/-- The shared state of a ClangCompleter relevant to the async pipeline:
the threading flag, the readiness flag clang_data_ready_, whether
clang_access_mutex_ is currently held by another thread (so a try-lock
fails), the three single-slot mailboxes, and the shared result cache
latest_clang_results_. -/
structure CompleterState where
  threading_enabled_ : Bool
  clang_data_ready_ : Bool
  clang_access_held_elsewhere : Bool
  file_parse_task_ : Option FileParseTask
  sorting_task_ : Option SortingTask
  clang_completions_task_ : Option ClangCompletionsTask
  latest_clang_results_ : List CompletionData
deriving DecidableEq, Repr

/-- Observable side effects of a call to
CandidatesForQueryAndLocationInFileAsync, in program order. -/
inductive Event where
  | clearDataReady
  | interruptAllSortingThreads
  | setSortingTask (t : SortingTask)
  | setClangCompletionsTask (t : ClangCompletionsTask)
deriving DecidableEq, Repr

/-- The future returned to the caller: either a default-constructed,
forever-unresolved future, or the future of the sorting task that was
installed. -/
inductive FutureVal where
  | empty
  | pendingSort (t : SortingTask)
deriving DecidableEq, Repr

/-- ClangCompleter::CandidatesForQueryAndLocationInFileAsync, embedded as
a state transformer that also records its side effects in program order.
Modelled from the spec: the Set operation of the sorting and completion
mailboxes (ConcurrentLatestValue, whose header is not part of the given
source) always replaces the slot contents and notifies waiters.  The
control flow itself follows the source: return an empty future when
threading is disabled; on an empty query, return an empty future if the
clang thread is busy, else clear clang_data_ready_ and interrupt all
sorting threads; always install the sorting task; on an empty query,
additionally install the extraction task afterwards. -/
def CandidatesForQueryAndLocationInFileAsync (query : String)
    (filename : String) (line column : Int) (unsaved_files : List UnsavedFile)
    (flags : List String) (s : CompleterState) :
    CompleterState × List Event × FutureVal :=
  if s.threading_enabled_ = false then (s, ([], FutureVal.empty))
  else if query.isEmpty && UpdatingTranslationUnit s.clang_access_held_elsewhere then
    (s, ([], FutureVal.empty))
  else
    let s₁ := if query.isEmpty then { s with clang_data_ready_ := false } else s
    let evs₁ : List Event :=
      if query.isEmpty then [Event.clearDataReady, Event.interruptAllSortingThreads] else []
    let sort_task : SortingTask := { query := query }
    let s₂ := { s₁ with sorting_task_ := some sort_task }
    let evs₂ := evs₁ ++ [Event.setSortingTask sort_task]
    if query.isEmpty then
      let clang_task : ClangCompletionsTask :=
        { filename := filename, line := line, column := column,
          unsaved_files := unsaved_files, flags := flags }
      ({ s₂ with clang_completions_task_ := some clang_task },
       (evs₂ ++ [Event.setClangCompletionsTask clang_task], FutureVal.pendingSort sort_task))
    else
      (s₂, (evs₂, FutureVal.pendingSort sort_task))

/-- ClangCompleter::UpdateTranslationUnitAsync, acting on the
file_parse_task_ mailbox slot.  Returns the new slot contents and whether
file_parse_task_condition_variable_.notify_all() was called.  The source
only ever sets the task when the slot is NULL; otherwise the call leaves
the slot untouched and returns. -/
def UpdateTranslationUnitAsync (filename : String)
    (unsaved_files : List UnsavedFile) (flags : List String)
    (file_parse_task_ : Option FileParseTask) : Option FileParseTask × Bool :=
  match file_parse_task_ with
  | some t => (some t, false)
  | none =>
      (some { filename := filename, unsaved_files := unsaved_files, flags := flags }, true)

/-- The outcome of one iteration of ClangCompletionsThreadMain. -/
inductive ClangIterOutcome where
  | droppedForFileParse
  | failed
  | published
deriving DecidableEq, Repr

/-- The shared state touched by one iteration of the extraction thread. -/
structure ClangThreadShared where
  file_parse_task_ : Option FileParseTask
  latest_clang_results_ : List CompletionData
  clang_data_ready_ : Bool
deriving DecidableEq, Repr

/-- One iteration of ClangCompleter::ClangCompletionsThreadMain, after the
mailbox Get has produced a task.  The task's execution is modelled by its
result: ok with a candidate vector, or error when the extraction functor
raises (the packaged task stores the exception and future.get rethrows
it).  If the file-parse slot is occupied the request is dropped.  If the
task failed, future.get throws before the cache assignment, so neither
latest_clang_results_ nor clang_data_ready_ is touched.  Only on success
is the cache overwritten under the writer lock, the readiness flag set,
and the readiness condition notified. -/
def ClangCompletionsIteration (task_run : Except String (List CompletionData))
    (s : ClangThreadShared) : ClangThreadShared × ClangIterOutcome :=
  match s.file_parse_task_ with
  | some _ => (s, ClangIterOutcome.droppedForFileParse)
  | none =>
      match task_run with
      | Except.error _ => (s, ClangIterOutcome.failed)
      | Except.ok results =>
          ({ s with latest_clang_results_ := results, clang_data_ready_ := true },
           ClangIterOutcome.published)

/-- Control position of a sorting thread inside the body of
SortingThreadMain's loop. -/
inductive SortPhase where
  | waiting
  | fetching
  | running (t : SortingTask)
  | terminated
deriving DecidableEq, Repr

/-- The view of the shared state relevant to a single sorting thread: its
control phase, the readiness flag clang_data_ready_, and the contents of
the sorting-task mailbox. -/
structure SortThreadState where
  phase : SortPhase
  clang_data_ready_ : Bool
  sorting_task_ : Option SortingTask
deriving DecidableEq, Repr

/-- Labels of the sorting-thread transition system.  Thread steps:
observing the readiness flag true and leaving the wait loop, fetching the
current sorting task from the mailbox, finishing the task, and receiving
an interruption at a wait point.  Environment steps model the other
threads: the pipeline clearing the readiness flag on a new empty-query
context, the extraction thread publishing and setting the flag, and the
pipeline installing a new sorting task. -/
inductive SortLabel where
  | observeReady
  | fetchTask (t : SortingTask)
  | finishTask
  | interrupted
  | envBeginNewContext
  | envPublishReady
  | envSetSortingTask (t : SortingTask)
deriving DecidableEq, Repr

/-- Small-step semantics of ClangCompleter::SortingThreadMain, with
environment interference.  Modelled from the spec: the mailbox Get of
ConcurrentLatestValue (header not in the given source) blocks until a
value has been set at least once, then returns the current value without
removing it, and a boost thread interruption is delivered only at the two
wait points (the readiness condition wait and the mailbox Get), where the
enclosing try block catches it and the loop restarts, returning the
thread to its waiting phase.  The wait loop is the source's
while-not-clang_data_ready_ loop under clang_data_ready_mutex_: the
thread moves past it only upon observing the flag true. -/
inductive SortStep : SortThreadState → SortLabel → SortThreadState → Prop where
  | observe_ready (t : Option SortingTask) :
      SortStep { phase := SortPhase.waiting, clang_data_ready_ := true, sorting_task_ := t }
        SortLabel.observeReady
        { phase := SortPhase.fetching, clang_data_ready_ := true, sorting_task_ := t }
  | fetch_task (r : Bool) (tk : SortingTask) :
      SortStep { phase := SortPhase.fetching, clang_data_ready_ := r, sorting_task_ := some tk }
        (SortLabel.fetchTask tk)
        { phase := SortPhase.running tk, clang_data_ready_ := r, sorting_task_ := some tk }
  | finish_task (tk : SortingTask) (r : Bool) (t : Option SortingTask) :
      SortStep { phase := SortPhase.running tk, clang_data_ready_ := r, sorting_task_ := t }
        SortLabel.finishTask
        { phase := SortPhase.waiting, clang_data_ready_ := r, sorting_task_ := t }
  | interrupted_waiting (r : Bool) (t : Option SortingTask) :
      SortStep { phase := SortPhase.waiting, clang_data_ready_ := r, sorting_task_ := t }
        SortLabel.interrupted
        { phase := SortPhase.waiting, clang_data_ready_ := r, sorting_task_ := t }
  | interrupted_fetching (r : Bool) (t : Option SortingTask) :
      SortStep { phase := SortPhase.fetching, clang_data_ready_ := r, sorting_task_ := t }
        SortLabel.interrupted
        { phase := SortPhase.waiting, clang_data_ready_ := r, sorting_task_ := t }
  | env_begin_new_context (p : SortPhase) (r : Bool) (t : Option SortingTask) :
      SortStep { phase := p, clang_data_ready_ := r, sorting_task_ := t }
        SortLabel.envBeginNewContext
        { phase := p, clang_data_ready_ := false, sorting_task_ := t }
  | env_publish_ready (p : SortPhase) (r : Bool) (t : Option SortingTask) :
      SortStep { phase := p, clang_data_ready_ := r, sorting_task_ := t }
        SortLabel.envPublishReady
        { phase := p, clang_data_ready_ := true, sorting_task_ := t }
  | env_set_sorting_task (p : SortPhase) (r : Bool) (t : Option SortingTask) (tk : SortingTask) :
      SortStep { phase := p, clang_data_ready_ := r, sorting_task_ := t }
        (SortLabel.envSetSortingTask tk)
        { phase := p, clang_data_ready_ := r, sorting_task_ := some tk }

/-- The initial state of a sorting thread: at the top of its loop, with
clang_data_ready_ false (the constructor initialises it to false) and an
empty sorting mailbox. -/
def initSortThreadState : SortThreadState :=
  { phase := SortPhase.waiting, clang_data_ready_ := false, sorting_task_ := none }

/-- Executions of the sorting-thread transition system, recording the
trace of labels. -/
inductive SortReaches : SortThreadState → List SortLabel → SortThreadState → Prop where
  | refl (s : SortThreadState) : SortReaches s [] s
  | step {s₁ s₂ s₃ : SortThreadState} {labs : List SortLabel} {l : SortLabel} :
      SortReaches s₁ labs s₂ → SortStep s₂ l s₃ → SortReaches s₁ (labs ++ [l]) s₃

/-- Tests whether an event is the submission of a sorting task. -/
def eventIsSetSortingTask : Event → Bool
  | Event.setSortingTask _ => true
  | _ => false

/-- Tests whether an event is the submission of an extraction task. -/
def eventIsSetClangCompletionsTask : Event → Bool
  | Event.setClangCompletionsTask _ => true
  | _ => false

/-- Holds when the first event satisfying p occurs strictly before any
event satisfying q in the trace (and both kinds of event occur). -/
def firstSuchPrecedes (p q : Event → Bool) : List Event → Bool
  | [] => false
  | e :: rest =>
      if q e then false
      else if p e then rest.any q
      else firstSuchPrecedes p q rest

/-- A completer state with threading enabled, data ready, the analyzer
lock free and all mailboxes empty. -/
def sampleState : CompleterState :=
  { threading_enabled_ := true
    clang_data_ready_ := true
    clang_access_held_elsewhere := false
    file_parse_task_ := none
    sorting_task_ := none
    clang_completions_task_ := none
    latest_clang_results_ := [] }

/-- Like sampleState but with the exclusive analyzer lock held by another
thread. -/
def sampleBusyState : CompleterState :=
  { sampleState with clang_access_held_elsewhere := true }

/-- A translation unit with one informational, one warning and one error
diagnostic. -/
def sampleUnit : CXTranslationUnit :=
  { filename_ := "a.c"
    flags_ := ["-Wall"]
    unsaved_ := []
    diags_ := [ { kind_ := 'I', text_ := "note" },
                { kind_ := 'W', text_ := "warn" },
                { kind_ := 'E', text_ := "err" } ] }

/-- A trivial analysis behaviour producing no diagnostics. -/
def sampleAnalyze : AnalyzeFun := fun _ _ _ => []

/-- A sample sorting task. -/
def sampleSortingTask : SortingTask := { query := "q" }

/-- Claim C2: for every request whose query is empty, if the analyzer
lock is currently held elsewhere, CandidatesForQueryAndLocationInFileAsync
returns an empty, unresolved future immediately, leaving the whole state
untouched (the readiness flag is not cleared, no mailbox is written) and
recording no interruption of any thread. -/
theorem empty_query_dropped_when_analyzer_busy (query filename : String)
    (line column : Int) (unsaved_files : List UnsavedFile) (flags : List String)
    (s : CompleterState) (hq : query.isEmpty = true)
    (hb : s.clang_access_held_elsewhere = true) :
    CandidatesForQueryAndLocationInFileAsync query filename line column unsaved_files flags s
      = (s, ([], FutureVal.empty)) := by
  unfold CandidatesForQueryAndLocationInFileAsync UpdatingTranslationUnit
  rcases ht : s.threading_enabled_ <;> simp [hq, hb, ht]

/-- Witness for claim C2 at a concrete empty-query request against a busy
analyzer. -/
theorem empty_query_dropped_when_analyzer_busy_witness :
    CandidatesForQueryAndLocationInFileAsync "" "a.c" 1 1 [] [] sampleBusyState
      = (sampleBusyState, ([], FutureVal.empty)) :=
  empty_query_dropped_when_analyzer_busy "" "a.c" 1 1 [] [] sampleBusyState rfl rfl

/-- Claim C3 counterexample: for a concrete empty-query request that is
not dropped, the recorded event trace submits the sorting (ranking) task
before the extraction task, so the extraction submission does NOT precede
the ranking submission as the claim states. -/
theorem extraction_before_ranking_counterexample :
    firstSuchPrecedes eventIsSetClangCompletionsTask eventIsSetSortingTask
      ((CandidatesForQueryAndLocationInFileAsync "" "foo.c" 1 2 [] [] sampleState).2.1)
      = false := by
  rfl

/-- Claim C3 (amended): for every empty-query request that is not
dropped, CandidatesForQueryAndLocationInFileAsync submits the ranking
(sorting) task to the ranking mailbox strictly BEFORE it builds and
submits the extraction task to the extraction mailbox — the source does
this deliberately so that an extraction finishing first still finds the
sorting task in place. -/
theorem ranking_submitted_before_extraction (query filename : String)
    (line column : Int) (unsaved_files : List UnsavedFile) (flags : List String)
    (s : CompleterState) (hq : query.isEmpty = true)
    (ht : s.threading_enabled_ = true) (hb : s.clang_access_held_elsewhere = false) :
    firstSuchPrecedes eventIsSetSortingTask eventIsSetClangCompletionsTask
      ((CandidatesForQueryAndLocationInFileAsync query filename line column unsaved_files flags s).2.1)
      = true := by
  unfold CandidatesForQueryAndLocationInFileAsync UpdatingTranslationUnit
  simp [hq, ht, hb, firstSuchPrecedes, eventIsSetSortingTask,
        eventIsSetClangCompletionsTask]

/-- Witness for the amended claim C3 at a concrete empty-query request. -/
theorem ranking_submitted_before_extraction_witness :
    firstSuchPrecedes eventIsSetSortingTask eventIsSetClangCompletionsTask
      ((CandidatesForQueryAndLocationInFileAsync "" "a.c" 3 4 [] [] sampleState).2.1)
      = true :=
  ranking_submitted_before_extraction "" "a.c" 3 4 [] [] sampleState rfl rfl rfl

/-- Claim C4: a set on the file-analysis mailbox while a task is already
pending is a no-op — the stored task is kept, the new one discarded, the
slot still holds exactly one task and nobody is notified; only when the
slot is empty is the new task installed and notify_all called. -/
theorem file_parse_set_noop_when_occupied (filename : String)
    (unsaved_files : List UnsavedFile) (flags : List String) :
    (∀ t : FileParseTask,
        UpdateTranslationUnitAsync filename unsaved_files flags (some t) = (some t, false)) ∧
    UpdateTranslationUnitAsync filename unsaved_files flags none
      = (some { filename := filename, unsaved_files := unsaved_files, flags := flags }, true) :=
  ⟨fun _ => rfl, rfl⟩

/-- Claim C6: when the extraction functor fails (the task's run produces
an error instead of a candidate vector), the extraction-thread iteration
does not publish: latest_clang_results_ keeps its previous value and
clang_data_ready_ is not set. -/
theorem failed_extraction_does_not_publish (e : String) (s : ClangThreadShared) :
    (ClangCompletionsIteration (Except.error e) s).1.latest_clang_results_
        = s.latest_clang_results_ ∧
    (ClangCompletionsIteration (Except.error e) s).1.clang_data_ready_
        = s.clang_data_ready_ := by
  unfold ClangCompletionsIteration
  rcases hfp : s.file_parse_task_ with _ | t <;> simp [hfp]

/-- Claim C7: for every request whose query is non-empty (threading
enabled), the call leaves the readiness flag, the cached candidate set,
the extraction mailbox and the file-parse mailbox unchanged, records no
interruption and no extraction submission; its only effects are
installing one ranking task in the ranking mailbox and returning that
task's future. -/
theorem nonempty_query_only_installs_sorting_task (query filename : String)
    (line column : Int) (unsaved_files : List UnsavedFile) (flags : List String)
    (s : CompleterState) (hq : query.isEmpty = false)
    (ht : s.threading_enabled_ = true) :
    CandidatesForQueryAndLocationInFileAsync query filename line column unsaved_files flags s
      = ({ s with sorting_task_ := some { query := query } },
         ([Event.setSortingTask { query := query }],
          FutureVal.pendingSort { query := query })) := by
  unfold CandidatesForQueryAndLocationInFileAsync
  simp [hq, ht]

/-- Witness for claim C7 at a concrete non-empty-query request. -/
theorem nonempty_query_only_installs_sorting_task_witness :
    CandidatesForQueryAndLocationInFileAsync "fo" "a.c" 1 1 [] [] sampleState
      = ({ sampleState with sorting_task_ := some { query := "fo" } },
         ([Event.setSortingTask { query := "fo" }],
          FutureVal.pendingSort { query := "fo" })) :=
  nonempty_query_only_installs_sorting_task "fo" "a.c" 1 1 [] [] sampleState rfl rfl

/-- Claim C8: diagnostics requested while the exclusive analyzer lock is
held elsewhere return the empty sequence at once — the try-lock fails and
the function never waits for the lock. -/
theorem diagnostics_empty_when_lock_held (m : TranslationUnitForFilename)
    (filename : String) :
    DiagnosticsForFile true m filename = [] :=
  rfl

/-- Claim C9: for every translation unit it can access,
DiagnosticsForFile returns exactly the unit's diagnostics whose kind is
not the informational kind I, in index order (a filter of the unit's
diagnostic sequence); informational diagnostics are omitted. -/
theorem diagnostics_skip_informational (m : TranslationUnitForFilename)
    (filename : String) (unit : CXTranslationUnit)
    (h : FindWithDefault m filename = some unit) :
    DiagnosticsForFile false m filename
        = unit.diags_.filter (fun d => d.kind_ != 'I') ∧
    ∀ d ∈ DiagnosticsForFile false m filename, d.kind_ ≠ 'I' := by
  have hmain : DiagnosticsForFile false m filename
      = unit.diags_.filter (fun d => d.kind_ != 'I') := by
    unfold DiagnosticsForFile
    simp [h]
  refine ⟨hmain, ?_⟩
  intro d hd
  rw [hmain] at hd
  simpa using List.of_mem_filter hd

/-- Witness for claim C9 on a unit holding an informational, a warning
and an error diagnostic. -/
theorem diagnostics_skip_informational_witness :
    DiagnosticsForFile false [("a.c", sampleUnit)] "a.c"
      = sampleUnit.diags_.filter (fun d => d.kind_ != 'I') :=
  (diagnostics_skip_informational [("a.c", sampleUnit)] "a.c" sampleUnit rfl).1

/-- Claim C10: when the filename already has a translation unit,
UpdateTranslationUnit reparses that unit with the given unsaved files and
ignores the flags argument completely — the stored unit keeps the flags
it was created with and the whole result is independent of the flags
argument; only when no unit exists is a new one created from the flags
and stored. -/
theorem update_ignores_flags_for_existing_unit (analyze : AnalyzeFun)
    (filename : String) (unsaved_files : List UnsavedFile) (flags : List String)
    (m : TranslationUnitForFilename) :
    (∀ unit, FindWithDefault m filename = some unit →
        UpdateTranslationUnit analyze filename unsaved_files flags m
          = mapStore m filename (clang_reparseTranslationUnit analyze unit unsaved_files) ∧
        (clang_reparseTranslationUnit analyze unit unsaved_files).flags_ = unit.flags_ ∧
        ∀ flags₂, UpdateTranslationUnit analyze filename unsaved_files flags₂ m
          = UpdateTranslationUnit analyze filename unsaved_files flags m) ∧
    (FindWithDefault m filename = none →
        UpdateTranslationUnit analyze filename unsaved_files flags m
          = mapStore m filename (CreateTranslationUnit analyze filename unsaved_files flags)) := by
  constructor
  · intro unit h
    refine ⟨?_, rfl, ?_⟩
    · unfold UpdateTranslationUnit
      rw [h]
    · intro flags₂
      unfold UpdateTranslationUnit
      rw [h]
  · intro h
    unfold UpdateTranslationUnit
    rw [h]

/-- Witness for claim C10 on a one-entry map: the update reparses the
stored unit and the flags argument plays no role. -/
theorem update_ignores_flags_for_existing_unit_witness :
    UpdateTranslationUnit sampleAnalyze "a.c" [] ["-O2"] [("a.c", sampleUnit)]
      = mapStore [("a.c", sampleUnit)] "a.c"
          (clang_reparseTranslationUnit sampleAnalyze sampleUnit []) :=
  ((update_ignores_flags_for_existing_unit sampleAnalyze "a.c" [] ["-O2"]
      [("a.c", sampleUnit)]).1 sampleUnit rfl).1

/-- Every step of the sorting-thread system preserves the fact that the
thread has not terminated: no transition, interruption included, leads to
the terminated phase. -/
lemma sortSteps_preserve_not_terminated {s₁ s₂ : SortThreadState}
    {labs : List SortLabel} (h : SortReaches s₁ labs s₂)
    (h₁ : s₁.phase ≠ SortPhase.terminated) : s₂.phase ≠ SortPhase.terminated := by
  induction h with
  | refl => exact h₁
  | step hr hs ih => cases hs <;> simp_all

/-- In any execution started at the top of the wait loop, a state in the
fetching or running phase is reachable only through an observation of the
readiness flag being true. -/
lemma sortReaches_observe_mem {s₁ s₂ : SortThreadState} {labs : List SortLabel}
    (h : SortReaches s₁ labs s₂) (hw : s₁.phase = SortPhase.waiting) :
    (s₂.phase = SortPhase.fetching ∨ ∃ tk, s₂.phase = SortPhase.running tk) →
    SortLabel.observeReady ∈ labs := by
  induction h with
  | refl =>
      intro hc
      rw [hw] at hc
      simp at hc
  | step hr hs ih =>
      intro hc
      cases hs with
      | observe_ready t => simp
      | fetch_task r tk =>
          exact List.mem_append_left _ (ih (Or.inl rfl))
      | finish_task tk r t => simp at hc
      | interrupted_waiting r t => simp at hc
      | interrupted_fetching r t => simp at hc
      | env_begin_new_context p r t =>
          exact List.mem_append_left _ (ih hc)
      | env_publish_ready p r t =>
          exact List.mem_append_left _ (ih hc)
      | env_set_sorting_task p r t tk =>
          exact List.mem_append_left _ (ih hc)

/-- Claim C1: in every execution of the sorting-thread system from its
initial state (which is exactly the state after a beginNewContext-style
readiness reset followed by interruption: the thread is back in its
waiting phase with the flag false), a thread can leave the wait loop only
by observing clang_data_ready_ true, and every state in which it has
fetched or is running a sorting task is preceded in the trace by such an
observation — readiness is always observed true before a ranking task is
fetched and run. -/
theorem sorting_thread_observes_ready_before_ranking :
    (∀ s s₂ : SortThreadState, SortStep s SortLabel.observeReady s₂ →
        s.clang_data_ready_ = true) ∧
    (∀ (labs : List SortLabel) (s : SortThreadState),
        SortReaches initSortThreadState labs s →
        (s.phase = SortPhase.fetching ∨ ∃ tk, s.phase = SortPhase.running tk) →
        SortLabel.observeReady ∈ labs) := by
  constructor
  · intro s s₂ h
    cases h
    rfl
  · intro labs s h hc
    exact sortReaches_observe_mem h rfl hc

/-- Witness for claim C1: a concrete execution that installs a task,
publishes readiness, observes it and fetches the task; the trace indeed
contains the readiness observation. -/
theorem sorting_thread_observes_ready_before_ranking_witness :
    SortLabel.observeReady ∈
      [SortLabel.envSetSortingTask sampleSortingTask, SortLabel.envPublishReady,
       SortLabel.observeReady, SortLabel.fetchTask sampleSortingTask] :=
  (sorting_thread_observes_ready_before_ranking).2
    [SortLabel.envSetSortingTask sampleSortingTask, SortLabel.envPublishReady,
     SortLabel.observeReady, SortLabel.fetchTask sampleSortingTask]
    { phase := SortPhase.running sampleSortingTask, clang_data_ready_ := true,
      sorting_task_ := some sampleSortingTask }
    (SortReaches.step (SortReaches.step (SortReaches.step (SortReaches.step
        (SortReaches.refl initSortThreadState)
        (SortStep.env_set_sorting_task SortPhase.waiting false none sampleSortingTask))
        (SortStep.env_publish_ready SortPhase.waiting false (some sampleSortingTask)))
        (SortStep.observe_ready (some sampleSortingTask)))
        (SortStep.fetch_task true sampleSortingTask))
    (Or.inr ⟨sampleSortingTask, rfl⟩)

/-- Claim C5: an interruption delivered at either wait point of the
sorting thread's loop sends the thread back to its waiting phase, and no
execution of the system ever brings a sorting thread to the terminated
phase — interruption never terminates the thread. -/
theorem interruption_returns_thread_to_waiting :
    (∀ s s₂ : SortThreadState, SortStep s SortLabel.interrupted s₂ →
        s₂.phase = SortPhase.waiting) ∧
    (∀ (labs : List SortLabel) (s : SortThreadState),
        SortReaches initSortThreadState labs s → s.phase ≠ SortPhase.terminated) := by
  constructor
  · intro s s₂ h
    cases h <;> rfl
  · intro labs s h
    exact sortSteps_preserve_not_terminated h (by simp [initSortThreadState])

/-- Witness for claim C5: a concrete interruption delivered while the
thread waits at the mailbox fetch returns it to the waiting phase. -/
theorem interruption_returns_thread_to_waiting_witness :
    ({ phase := SortPhase.waiting, clang_data_ready_ := true,
       sorting_task_ := some sampleSortingTask } : SortThreadState).phase
      = SortPhase.waiting :=
  (interruption_returns_thread_to_waiting).1
    { phase := SortPhase.fetching, clang_data_ready_ := true,
      sorting_task_ := some sampleSortingTask }
    { phase := SortPhase.waiting, clang_data_ready_ := true,
      sorting_task_ := some sampleSortingTask }
    (SortStep.interrupted_fetching true (some sampleSortingTask))

end YouCompleteMe
